import Mathlib

/-!
Verification development for the Indian Customs Duty RAG assistant
(`PGDM25_20252008_Devarshi_Assign1.py`), a Streamlit script that loads
PDF/CSV/URL documents, builds or reopens a persisted Chroma vector index,
and answers questions by retrieving top-5 chunks and prompting an LLM.

External collaborators (document loaders, the vector store, the embedding
service, the LLM) are modelled as function parameters; the script's own
control flow is embedded faithfully.
-/

/-- A LangChain document: text content plus source metadata. -/
structure Document where
  page_content : String
  metadata : String
deriving Repr, DecidableEq

/-- Configuration of `ChatGoogleGenerativeAI` as constructed by `get_llm`. -/
structure LLMConfig where
  model : String
  temperature : Int
deriving Repr, DecidableEq

/-- `get_llm()` returns `ChatGoogleGenerativeAI(model="gemini-2.5-flash", temperature=0.0)`. -/
def get_llm : LLMConfig :=
  { model := "gemini-2.5-flash", temperature := 0 }

/-- Result of one `ask_llm` call: the list of prompts actually sent to the
LLM (so that the number of LLM calls is observable) and the returned string. -/
structure AskResult where
  llmCalls : List String
  answer : String
deriving Repr, DecidableEq

/-- The fixed message returned when retrieval finds nothing (line 107). -/
def noDocsMessage : String := "❌ No relevant documents found."

/-- `ask_llm(query)` (lines 102-112): retrieve top-5 chunks; if the result
list is empty return the fixed message without an LLM call; otherwise join
the chunk texts by blank lines, build the instruction prompt, send it once,
and return `answer.content` verbatim.  `retrieve` models
`db.as_retriever(search_kwargs=\x7b"k": 5\x7d).invoke`, and `llm p` models
`get_llm().invoke(p).content`. -/
def ask_llm (retrieve : String → List Document) (llm : String → String)
    (query : String) : AskResult :=
  let results := retrieve query
  if results = [] then
    { llmCalls := [], answer := noDocsMessage }
  else
    let context := String.intercalate "\n\n" (results.map Document.page_content)
    let prompt :=
      "Use ONLY the context to answer. Also provide sample calculations. Generate output in table.\n\nContext:\n"
        ++ context ++ "\n\nQuestion: " ++ query
    { llmCalls := [prompt], answer := llm prompt }

/-- `s` contains `sub` as a contiguous substring. -/
def containsStr (s sub : String) : Prop :=
  ∃ a b : String, s = a ++ sub ++ b

/-! ## Document loading (lines 37-80) -/

/-- `PDF_FILES` (line 37). -/
def PDF_FILES : List String := ["pdf_c_3_merged.pdf"]

/-- `CSV_FILES` (line 38). -/
def CSV_FILES : List String := ["customs_duty_table.csv"]

/-- `URLS` (lines 39-42). -/
def URLS : List String :=
  ["https://www.india-briefing.com/doing-business-guide/india/taxation-and-accounting/customs-duty-and-import-export-taxes-in-india",
   "https://cleartax.in/s/customs-duty-india"]

/-- `DB_DIR` (line 44). -/
def DB_DIR : String := "rag_db"

/-- The external world `load_all_documents` interacts with:
`pathExists` models `os.path.exists`; `loadPdf p` models
`PyPDFLoader(p).load()` and `loadCsv p` models
`CSVLoader(p, encoding="utf-8").load()`, each either returning documents or
raising (an `Except.error` models a raised exception); `loadUrl u` models
`WebBaseLoader(u).load()`, likewise returning documents or raising. -/
structure LoadEnv where
  pathExists : String → Bool
  loadPdf : String → Except String (List Document)
  loadCsv : String → Except String (List Document)
  loadUrl : String → Except String (List Document)

/-- The PDF loop (lines 54-59): for each path, if it exists load it and
extend `docs` (a raised exception propagates, aborting the whole call);
otherwise emit the warning `⚠ PDF not found: <p>` and continue. -/
def loadPdfLoop (env : LoadEnv) : List String → Except String (List Document × List String)
  | [] => Except.ok ([], [])
  | p :: rest =>
    if env.pathExists p then
      match env.loadPdf p with
      | Except.error e => Except.error e
      | Except.ok ds =>
        match loadPdfLoop env rest with
        | Except.error e => Except.error e
        | Except.ok (ds2, ws) => Except.ok (ds ++ ds2, ws)
    else
      match loadPdfLoop env rest with
      | Except.error e => Except.error e
      | Except.ok (ds2, ws) => Except.ok (ds2, ("⚠ PDF not found: " ++ p) :: ws)

/-- The CSV loop (lines 62-67), identical shape to the PDF loop with the
warning `⚠ CSV not found: <c>`. -/
def loadCsvLoop (env : LoadEnv) : List String → Except String (List Document × List String)
  | [] => Except.ok ([], [])
  | c :: rest =>
    if env.pathExists c then
      match env.loadCsv c with
      | Except.error e => Except.error e
      | Except.ok ds =>
        match loadCsvLoop env rest with
        | Except.error e => Except.error e
        | Except.ok (ds2, ws) => Except.ok (ds ++ ds2, ws)
    else
      match loadCsvLoop env rest with
      | Except.error e => Except.error e
      | Except.ok (ds2, ws) => Except.ok (ds2, ("⚠ CSV not found: " ++ c) :: ws)

/-- The URL loop (lines 70-75): each fetch is wrapped in `try/except`, so a
failure becomes the warning `⚠ Failed to load URL <u>: <e>` and the loop
continues; it can never abort the call. -/
def loadUrlLoop (env : LoadEnv) : List String → List Document × List String
  | [] => ([], [])
  | u :: rest =>
    let (ds2, ws) := loadUrlLoop env rest
    match env.loadUrl u with
    | Except.ok ds => (ds ++ ds2, ws)
    | Except.error e => (ds2, ("⚠ Failed to load URL " ++ u ++ ": " ++ e) :: ws)

/-- `load_all_documents()` (lines 49-77): run the PDF loop over `PDF_FILES`,
the CSV loop over `CSV_FILES`, then the URL loop over `URLS`, accumulating
documents in that order; the warnings issued by `st.warning` are collected
alongside.  An unhandled exception in the PDF or CSV stage propagates. -/
def load_all_documents (env : LoadEnv) : Except String (List Document × List String) :=
  match loadPdfLoop env PDF_FILES with
  | Except.error e => Except.error e
  | Except.ok (d1, w1) =>
    match loadCsvLoop env CSV_FILES with
    | Except.error e => Except.error e
    | Except.ok (d2, w2) =>
      let (d3, w3) := loadUrlLoop env URLS
      Except.ok (d1 ++ d2 ++ d3, w1 ++ w2 ++ w3)

/-- The status line `✅ Loaded <n> documents.` written at line 80. -/
def loadedMessage (docs : List Document) : String :=
  "✅ Loaded " ++ toString docs.length ++ " documents."

/-- Expected documents contributed by one local path: the loader's output
when the path exists (and parses), nothing when it is missing. -/
def localDocsSpec (env : LoadEnv) (loader : String → Except String (List Document))
    (p : String) : List Document :=
  if env.pathExists p then
    match loader p with
    | Except.ok ds => ds
    | Except.error _ => []
  else []

/-- Expected documents contributed by one URL: the fetch result on success,
nothing on failure. -/
def urlDocsSpec (env : LoadEnv) (u : String) : List Document :=
  match env.loadUrl u with
  | Except.ok ds => ds
  | Except.error _ => []

/-- Expected warning for one local PDF path: exactly one if missing. -/
def pdfWarnSpec (env : LoadEnv) (p : String) : List String :=
  if env.pathExists p then [] else ["⚠ PDF not found: " ++ p]

/-- Expected warning for one local CSV path: exactly one if missing. -/
def csvWarnSpec (env : LoadEnv) (c : String) : List String :=
  if env.pathExists c then [] else ["⚠ CSV not found: " ++ c]

/-- Expected warning for one URL: exactly one if the fetch failed. -/
def urlWarnSpec (env : LoadEnv) (u : String) : List String :=
  match env.loadUrl u with
  | Except.ok _ => []
  | Except.error e => ["⚠ Failed to load URL " ++ u ++ ": " ++ e]

/-! ## Vector store and the per-run event trace (lines 85-112) -/

/-- Observable external calls the script makes during a run.
`splitCall` is an invocation of the Chunk Splitter
(`splitter.split_documents`, line 91); `embedBuild` is the one build call
`Chroma.from_documents(chunks, embedding=embeddings, ...)` (line 93), which
embeds exactly its chunk argument; `openIndex` is the reopen
`Chroma(embedding_function=..., persist_directory=DB_DIR)` (line 88);
`retrieveCall` is `retriever.invoke(query)` (line 104), delegated to the
index; `llmCall` is `llm.invoke(prompt)` (line 111). -/
inductive Event where
  | splitCall (docs : List Document)
  | embedBuild (chunks : List Document)
  | openIndex
  | retrieveCall (query : String)
  | llmCall (prompt : String)
deriving Repr, DecidableEq

/-- True exactly on Chunk Splitter invocations. -/
def Event.isSplit : Event → Bool
  | Event.splitCall _ => true
  | _ => false

/-- True exactly on chunk-embedding build calls. -/
def Event.isEmbed : Event → Bool
  | Event.embedBuild _ => true
  | _ => false

/-- Outcome of `get_vectorstore()`: the external calls it issued and whether
the persisted directory `rag_db` exists afterwards. -/
structure VSOutcome where
  events : List Event
  dirExistsAfter : Bool
deriving Repr, DecidableEq

/-- `get_vectorstore()` (lines 85-95).  If `DB_DIR` exists the store is
reopened as-is (no splitter, no embedding).  Otherwise the splitter is run
with `chunk_size=1000, chunk_overlap=200` (`split 1000 200 docs` models
`RecursiveCharacterTextSplitter(chunk_size=1000, chunk_overlap=200)
.split_documents(all_docs)`), and the single build call embeds those chunks
and persists to `DB_DIR` (`Chroma.from_documents(..., persist_directory=
DB_DIR)` followed by `db.persist()` creates the directory, so it exists
after the call). -/
def get_vectorstore (split : Nat → Nat → List Document → List Document)
    (dirExists : Bool) (docs : List Document) : VSOutcome :=
  if dirExists then
    { events := [Event.openIndex], dirExistsAfter := true }
  else
    let chunks := split 1000 200 docs
    { events := [Event.splitCall docs, Event.embedBuild chunks], dirExistsAfter := true }

/-- External calls issued by one `ask_llm(query)` invocation: the retrieval
call, then the LLM call if one is made. -/
def askEvents (retrieve : String → List Document) (llm : String → String)
    (query : String) : List Event :=
  Event.retrieveCall query :: (ask_llm retrieve llm query).llmCalls.map Event.llmCall

/-- One process run: `get_vectorstore` is executed once (it is
`@st.cache_resource`-memoized, line 85, so at most once per process), then
each submitted query goes through `ask_llm`.  Returns the full run trace and
whether `rag_db` exists afterwards. -/
def runOnce (split : Nat → Nat → List Document → List Document)
    (dirExists : Bool) (docs : List Document)
    (retrieve : String → List Document) (llm : String → String)
    (queries : List String) : List Event × Bool :=
  let vs := get_vectorstore split dirExists docs
  (vs.events ++ queries.flatMap (askEvents retrieve llm), vs.dirExistsAfter)

/-! ## Front end (lines 136-175) -/

/-- The per-session Streamlit state: `st.session_state.history`, initialized
to `[]` (lines 136-137) and holding (question, answer) pairs. -/
structure UIState where
  history : List (String × String)
deriving Repr, DecidableEq

/-- Outcome of one Ask-button press. -/
structure StepOutcome where
  warned : Bool
  llmCalled : Bool
  displayed : Option String
  state : UIState
deriving Repr, DecidableEq

/-- `user_query.strip() == ""`: Python's `str.strip()` removes leading and
trailing whitespace, so the stripped string is empty exactly when every
character is whitespace (including the empty string). -/
def isBlank (s : String) : Bool := s.data.all Char.isWhitespace

/-- The Ask-button handler (lines 157-164).  On a blank query
(`user_query.strip() == ""`, modelled by `isBlank`) it warns and does
nothing else; otherwise it calls `ask_llm` (`answerOf`) and renders the
answer.  Note the source never appends to `st.session_state.history`: the
state is returned unchanged on both branches. -/
def askButtonHandler (answerOf : String → String) (query : String)
    (s : UIState) : StepOutcome :=
  if isBlank query then
    { warned := true, llmCalled := false, displayed := none, state := s }
  else
    { warned := false, llmCalled := true, displayed := some (answerOf query),
      state := s }

/-- A session: start from the initial empty history and press Ask once per
query, threading the session state. -/
def runSession (answerOf : String → String) (queries : List String) : UIState :=
  queries.foldl (fun s q => (askButtonHandler answerOf q s).state) { history := [] }

/-! ## Concrete environments used as witnesses -/

/-- Every path present, every loader succeeds. -/
def envAllPresent : LoadEnv where
  pathExists := fun _ => true
  loadPdf := fun p => Except.ok [{ page_content := "pdf text", metadata := p }]
  loadCsv := fun c => Except.ok [{ page_content := "csv text", metadata := c }]
  loadUrl := fun u => Except.ok [{ page_content := "web text", metadata := u }]

/-- Every path missing, every URL fetch fails. -/
def envAllMissing : LoadEnv where
  pathExists := fun _ => false
  loadPdf := fun _ => Except.error "unreachable"
  loadCsv := fun _ => Except.error "unreachable"
  loadUrl := fun _ => Except.error "connection refused"

/-- Paths present but the PDF parser raises. -/
def envBadPdf : LoadEnv where
  pathExists := fun _ => true
  loadPdf := fun _ => Except.error "parse failure"
  loadCsv := fun c => Except.ok [{ page_content := "csv text", metadata := c }]
  loadUrl := fun u => Except.ok [{ page_content := "web text", metadata := u }]

/-- A retriever that always finds one chunk (used to instantiate theorems). -/
def retrieveOne : String → List Document :=
  fun _ => [{ page_content := "BCD is 10 percent", metadata := "customs_duty_table.csv" }]

/-- A retriever that never finds anything. -/
def retrieveNone : String → List Document := fun _ => []

/-- A concrete LLM stub echoing its prompt. -/
def llmEcho : String → String := fun p => "LLM says: " ++ p

/-! ## Helper lemmas -/

theorem loadPdfLoop_eq (env : LoadEnv) :
    ∀ ps : List String, (∀ p ∈ ps, env.pathExists p → (env.loadPdf p).isOk) →
      loadPdfLoop env ps =
        Except.ok (ps.flatMap (localDocsSpec env env.loadPdf),
                   ps.flatMap (pdfWarnSpec env))
  | [], _ => rfl
  | p :: rest, h => by
    have hrest := loadPdfLoop_eq env rest (fun q hq => h q (List.mem_cons_of_mem _ hq))
    by_cases hex : env.pathExists p
    · have hok := h p (List.mem_cons_self _ _) hex
      cases hld : env.loadPdf p with
      | error e => rw [hld] at hok; simp [Except.isOk, Except.toBool] at hok
      | ok ds =>
        simp [loadPdfLoop, hex, hld, hrest, localDocsSpec, pdfWarnSpec]
    · simp [loadPdfLoop, hex, hrest, localDocsSpec, pdfWarnSpec]

theorem loadCsvLoop_eq (env : LoadEnv) :
    ∀ cs : List String, (∀ c ∈ cs, env.pathExists c → (env.loadCsv c).isOk) →
      loadCsvLoop env cs =
        Except.ok (cs.flatMap (localDocsSpec env env.loadCsv),
                   cs.flatMap (csvWarnSpec env))
  | [], _ => rfl
  | c :: rest, h => by
    have hrest := loadCsvLoop_eq env rest (fun q hq => h q (List.mem_cons_of_mem _ hq))
    by_cases hex : env.pathExists c
    · have hok := h c (List.mem_cons_self _ _) hex
      cases hld : env.loadCsv c with
      | error e => rw [hld] at hok; simp [Except.isOk, Except.toBool] at hok
      | ok ds =>
        simp [loadCsvLoop, hex, hld, hrest, localDocsSpec, csvWarnSpec]
    · simp [loadCsvLoop, hex, hrest, localDocsSpec, csvWarnSpec]

theorem loadUrlLoop_eq (env : LoadEnv) :
    ∀ us : List String,
      loadUrlLoop env us = (us.flatMap (urlDocsSpec env), us.flatMap (urlWarnSpec env))
  | [] => rfl
  | u :: rest => by
    have hrest := loadUrlLoop_eq env rest
    cases hld : env.loadUrl u with
    | ok ds => simp [loadUrlLoop, hld, hrest, urlDocsSpec, urlWarnSpec]
    | error e => simp [loadUrlLoop, hld, hrest, urlDocsSpec, urlWarnSpec]

/-- The full result of `load_all_documents` when every present local file
parses successfully. -/
theorem load_all_documents_eq (env : LoadEnv)
    (hpdf : ∀ p ∈ PDF_FILES, env.pathExists p → (env.loadPdf p).isOk)
    (hcsv : ∀ c ∈ CSV_FILES, env.pathExists c → (env.loadCsv c).isOk) :
    load_all_documents env =
      Except.ok
        (PDF_FILES.flatMap (localDocsSpec env env.loadPdf)
           ++ CSV_FILES.flatMap (localDocsSpec env env.loadCsv)
           ++ URLS.flatMap (urlDocsSpec env),
         PDF_FILES.flatMap (pdfWarnSpec env)
           ++ CSV_FILES.flatMap (csvWarnSpec env)
           ++ URLS.flatMap (urlWarnSpec env)) := by
  unfold load_all_documents
  rw [loadPdfLoop_eq env PDF_FILES hpdf, loadCsvLoop_eq env CSV_FILES hcsv,
    loadUrlLoop_eq env URLS]

theorem askButtonHandler_state (answerOf : String → String) (query : String)
    (s : UIState) : (askButtonHandler answerOf query s).state = s := by
  unfold askButtonHandler
  split <;> rfl

/-! ## Claim theorems -/

/-- C2: for every query whose retrieval result list is non-empty, `ask_llm`
issues exactly one LLM call, whose prompt contains the literal query text
and the `page_content` of all retrieved chunks joined by blank-line
separators, with the LLM configured at temperature 0, and returns the LLM
response verbatim. -/
theorem ask_llm_single_call (retrieve : String → List Document)
    (llm : String → String) (query : String) (h : retrieve query ≠ []) :
    ∃ prompt : String,
      (ask_llm retrieve llm query).llmCalls = [prompt] ∧
      containsStr prompt query ∧
      containsStr prompt
        (String.intercalate "\n\n" ((retrieve query).map Document.page_content)) ∧
      get_llm.temperature = 0 ∧
      (ask_llm retrieve llm query).answer = llm prompt := by
  refine
    ⟨"Use ONLY the context to answer. Also provide sample calculations. Generate output in table.\n\nContext:\n"
        ++ String.intercalate "\n\n" ((retrieve query).map Document.page_content)
        ++ "\n\nQuestion: " ++ query, ?_, ?_, ?_, rfl, ?_⟩
  · simp [ask_llm, h]
  · exact
      ⟨"Use ONLY the context to answer. Also provide sample calculations. Generate output in table.\n\nContext:\n"
          ++ String.intercalate "\n\n" ((retrieve query).map Document.page_content)
          ++ "\n\nQuestion: ", "", by simp [String.append_assoc]⟩
  · exact
      ⟨"Use ONLY the context to answer. Also provide sample calculations. Generate output in table.\n\nContext:\n",
        "\n\nQuestion: " ++ query, by simp [String.append_assoc]⟩
  · simp [ask_llm, h]

/-- Witness for C2 at a concrete retriever, LLM stub and query. -/
theorem ask_llm_single_call_witness :
    ∃ prompt : String,
      (ask_llm retrieveOne llmEcho "What is BCD?").llmCalls = [prompt] ∧
      containsStr prompt "What is BCD?" ∧
      containsStr prompt
        (String.intercalate "\n\n"
          ((retrieveOne "What is BCD?").map Document.page_content)) ∧
      get_llm.temperature = 0 ∧
      (ask_llm retrieveOne llmEcho "What is BCD?").answer = llmEcho prompt :=
  ask_llm_single_call retrieveOne llmEcho "What is BCD?" (by simp [retrieveOne])

/-- C3: for every query whose top-5 retrieval is empty, `ask_llm` returns
the fixed "no relevant documents" message and makes no LLM call. -/
theorem ask_llm_no_results (retrieve : String → List Document)
    (llm : String → String) (query : String) (h : retrieve query = []) :
    (ask_llm retrieve llm query).llmCalls = [] ∧
    (ask_llm retrieve llm query).answer = noDocsMessage := by
  simp [ask_llm, h]

/-- Witness for C3 at the empty retriever. -/
theorem ask_llm_no_results_witness :
    (ask_llm retrieveNone llmEcho "anything").llmCalls = [] ∧
    (ask_llm retrieveNone llmEcho "anything").answer = noDocsMessage :=
  ask_llm_no_results retrieveNone llmEcho "anything" rfl

/-- C8: a submission whose query is empty or whitespace-only produces the
warning, does not call `ask_llm`, displays nothing, and leaves the session
state unchanged. -/
theorem blank_query_rejected (answerOf : String → String) (query : String)
    (s : UIState) (h : isBlank query = true) :
    (askButtonHandler answerOf query s).warned = true ∧
    (askButtonHandler answerOf query s).llmCalled = false ∧
    (askButtonHandler answerOf query s).displayed = none ∧
    (askButtonHandler answerOf query s).state = s := by
  simp [askButtonHandler, h]

/-- Witness for C8 at a whitespace query and a non-trivial session state. -/
theorem blank_query_rejected_witness :
    (askButtonHandler llmEcho "   " { history := [("q", "a")] }).warned = true ∧
    (askButtonHandler llmEcho "   " { history := [("q", "a")] }).llmCalled = false ∧
    (askButtonHandler llmEcho "   " { history := [("q", "a")] }).displayed = none ∧
    (askButtonHandler llmEcho "   " { history := [("q", "a")] }).state
      = { history := [("q", "a")] } :=
  blank_query_rejected llmEcho "   " { history := [("q", "a")] } (by decide)

/-- C1 (refuted as stated — the source never appends to
`st.session_state.history`): the session history stays empty after any
sequence of submissions, in particular after one successful non-empty
submission, where the claim requires one (question, answer) pair. -/
theorem sessionHistory_stays_empty :
    (∀ (answerOf : String → String) (queries : List String),
        (runSession answerOf queries).history = []) ∧
    (runSession (fun _ => "a sample answer") ["What is BCD?"]).history.length = 0 ∧
    isBlank "What is BCD?" = false := by
  refine ⟨?_, ?_, by decide⟩
  · intro answerOf queries
    have hfold : ∀ (qs : List String) (s : UIState),
        qs.foldl (fun s q => (askButtonHandler answerOf q s).state) s = s := by
      intro qs
      induction qs with
      | nil => intro s; rfl
      | cons q rest ih => intro s; simp [askButtonHandler_state, ih]
    simp [runSession, hfold queries { history := [] }]
  · have hstate := askButtonHandler_state (fun _ => "a sample answer")
      "What is BCD?" { history := [] }
    simp [runSession, hstate]

theorem map_llmCall_filter_split :
    ∀ ps : List String, (ps.map Event.llmCall).filter Event.isSplit = []
  | [] => rfl
  | p :: rest => by simp [Event.isSplit, map_llmCall_filter_split rest]

theorem map_llmCall_filter_embed :
    ∀ ps : List String, (ps.map Event.llmCall).filter Event.isEmbed = []
  | [] => rfl
  | p :: rest => by simp [Event.isEmbed, map_llmCall_filter_embed rest]

theorem askEvents_filter_split (retrieve : String → List Document)
    (llm : String → String) (q : String) :
    (askEvents retrieve llm q).filter Event.isSplit = [] := by
  simp [askEvents, Event.isSplit, map_llmCall_filter_split]

theorem askEvents_filter_embed (retrieve : String → List Document)
    (llm : String → String) (q : String) :
    (askEvents retrieve llm q).filter Event.isEmbed = [] := by
  simp [askEvents, Event.isEmbed, map_llmCall_filter_embed]

theorem flatMap_askEvents_filter_split (retrieve : String → List Document)
    (llm : String → String) :
    ∀ qs : List String,
      (qs.flatMap (askEvents retrieve llm)).filter Event.isSplit = []
  | [] => rfl
  | q :: rest => by
    simp [List.filter_append, askEvents_filter_split,
      flatMap_askEvents_filter_split retrieve llm rest]

theorem flatMap_askEvents_filter_embed (retrieve : String → List Document)
    (llm : String → String) :
    ∀ qs : List String,
      (qs.flatMap (askEvents retrieve llm)).filter Event.isEmbed = []
  | [] => rfl
  | q :: rest => by
    simp [List.filter_append, askEvents_filter_embed,
      flatMap_askEvents_filter_embed retrieve llm rest]

/-- C4: in a run that starts with the persisted `rag_db` directory present,
the Chunk Splitter is never invoked and no chunk-embedding call is made at
any point of the run (`get_vectorstore` plus any number of queries); the
index is reopened as-is. -/
theorem reopen_path_no_split_no_embed
    (split : Nat → Nat → List Document → List Document) (docs : List Document)
    (retrieve : String → List Document) (llm : String → String)
    (queries : List String) :
    (runOnce split true docs retrieve llm queries).1.filter Event.isSplit = [] ∧
    (runOnce split true docs retrieve llm queries).1.filter Event.isEmbed = [] ∧
    (get_vectorstore split true docs).events = [Event.openIndex] := by
  refine ⟨?_, ?_, rfl⟩ <;>
    simp [runOnce, get_vectorstore, List.filter_append, Event.isSplit, Event.isEmbed,
      flatMap_askEvents_filter_split retrieve llm queries,
      flatMap_askEvents_filter_embed retrieve llm queries]

/-- C5: in a run that starts without the persisted directory, the trace
contains exactly one chunk-embedding build call, whose argument is exactly
the chunks obtained by splitting the loaded documents with chunk size 1000
and overlap 200, exactly one splitter invocation on the loaded documents,
and the directory exists after the call. -/
theorem fresh_path_builds_once
    (split : Nat → Nat → List Document → List Document) (docs : List Document)
    (retrieve : String → List Document) (llm : String → String)
    (queries : List String) :
    (runOnce split false docs retrieve llm queries).1.filter Event.isEmbed
        = [Event.embedBuild (split 1000 200 docs)] ∧
    (runOnce split false docs retrieve llm queries).1.filter Event.isSplit
        = [Event.splitCall docs] ∧
    (runOnce split false docs retrieve llm queries).2 = true := by
  refine ⟨?_, ?_, rfl⟩ <;>
    simp [runOnce, get_vectorstore, List.filter_append, Event.isSplit, Event.isEmbed,
      flatMap_askEvents_filter_split retrieve llm queries,
      flatMap_askEvents_filter_embed retrieve llm queries]

theorem loadPdfLoop_isOk_iff (env : LoadEnv) :
    ∀ ps : List String, (loadPdfLoop env ps).isOk = true ↔
      ∀ p ∈ ps, env.pathExists p = true → (env.loadPdf p).isOk = true
  | [] => by simp [loadPdfLoop, Except.isOk, Except.toBool]
  | p :: rest => by
    have ih := loadPdfLoop_isOk_iff env rest
    by_cases hex : env.pathExists p
    · cases hld : env.loadPdf p with
      | error e =>
        simp [loadPdfLoop, hex, hld, Except.isOk, Except.toBool]
      | ok ds =>
        cases hrest : loadPdfLoop env rest with
        | error e =>
          rw [hrest] at ih
          simp only [Except.isOk, Except.toBool] at ih
          simp [loadPdfLoop, hex, hld, hrest, Except.isOk, Except.toBool,
            ← ih]
        | ok pr =>
          obtain ⟨ds2, ws⟩ := pr
          rw [hrest] at ih
          simp only [Except.isOk, Except.toBool] at ih
          simp [loadPdfLoop, hex, hld, hrest, Except.isOk, Except.toBool,
            ← ih]
    · cases hrest : loadPdfLoop env rest with
      | error e =>
        rw [hrest] at ih
        simp only [Except.isOk, Except.toBool] at ih
        simp [loadPdfLoop, hex, hrest, Except.isOk, Except.toBool, ← ih]
      | ok pr =>
        obtain ⟨ds2, ws⟩ := pr
        rw [hrest] at ih
        simp only [Except.isOk, Except.toBool] at ih
        simp [loadPdfLoop, hex, hrest, Except.isOk, Except.toBool, ← ih]

theorem loadCsvLoop_isOk_iff (env : LoadEnv) :
    ∀ cs : List String, (loadCsvLoop env cs).isOk = true ↔
      ∀ c ∈ cs, env.pathExists c = true → (env.loadCsv c).isOk = true
  | [] => by simp [loadCsvLoop, Except.isOk, Except.toBool]
  | c :: rest => by
    have ih := loadCsvLoop_isOk_iff env rest
    by_cases hex : env.pathExists c
    · cases hld : env.loadCsv c with
      | error e =>
        simp [loadCsvLoop, hex, hld, Except.isOk, Except.toBool]
      | ok ds =>
        cases hrest : loadCsvLoop env rest with
        | error e =>
          rw [hrest] at ih
          simp only [Except.isOk, Except.toBool] at ih
          simp [loadCsvLoop, hex, hld, hrest, Except.isOk, Except.toBool,
            ← ih]
        | ok pr =>
          obtain ⟨ds2, ws⟩ := pr
          rw [hrest] at ih
          simp only [Except.isOk, Except.toBool] at ih
          simp [loadCsvLoop, hex, hld, hrest, Except.isOk, Except.toBool,
            ← ih]
    · cases hrest : loadCsvLoop env rest with
      | error e =>
        rw [hrest] at ih
        simp only [Except.isOk, Except.toBool] at ih
        simp [loadCsvLoop, hex, hrest, Except.isOk, Except.toBool, ← ih]
      | ok pr =>
        obtain ⟨ds2, ws⟩ := pr
        rw [hrest] at ih
        simp only [Except.isOk, Except.toBool] at ih
        simp [loadCsvLoop, hex, hrest, Except.isOk, Except.toBool, ← ih]

theorem load_all_documents_isOk_eq (env : LoadEnv) :
    (load_all_documents env).isOk =
      ((loadPdfLoop env PDF_FILES).isOk && (loadCsvLoop env CSV_FILES).isOk) := by
  unfold load_all_documents
  cases h1 : loadPdfLoop env PDF_FILES with
  | error e => simp [Except.isOk, Except.toBool]
  | ok pr =>
    obtain ⟨d1, w1⟩ := pr
    cases h2 : loadCsvLoop env CSV_FILES with
    | error e => simp [Except.isOk, Except.toBool]
    | ok pr2 =>
      obtain ⟨d2, w2⟩ := pr2
      cases h3 : loadUrlLoop env URLS with
      | mk d3 w3 => simp [h3, Except.isOk, Except.toBool]

theorem flatMap_localDocsSpec_nil (env : LoadEnv)
    (loader : String → Except String (List Document)) :
    ∀ ps : List String, (∀ p ∈ ps, env.pathExists p = false) →
      ps.flatMap (localDocsSpec env loader) = []
  | [], _ => rfl
  | p :: rest, h => by
    simp [localDocsSpec, h p (List.mem_cons_self _ _),
      flatMap_localDocsSpec_nil env loader rest
        (fun q hq => h q (List.mem_cons_of_mem _ hq))]

theorem flatMap_urlDocsSpec_nil (env : LoadEnv) :
    ∀ us : List String, (∀ u ∈ us, ∃ e, env.loadUrl u = Except.error e) →
      us.flatMap (urlDocsSpec env) = []
  | [], _ => rfl
  | u :: rest, h => by
    obtain ⟨e, he⟩ := h u (List.mem_cons_self _ _)
    simp [urlDocsSpec, he,
      flatMap_urlDocsSpec_nil env rest (fun q hq => h q (List.mem_cons_of_mem _ hq))]

/-- C6: when every present local file parses successfully, any combination
of missing paths and failed URL fetches still lets `load_all_documents`
complete without raising, returning all successfully loaded documents, and
the warnings emitted are exactly one per missing PDF path, one per missing
CSV path and one per failed URL, in that order. -/
theorem load_all_documents_warns (env : LoadEnv)
    (hpdf : ∀ p ∈ PDF_FILES, env.pathExists p = true → (env.loadPdf p).isOk = true)
    (hcsv : ∀ c ∈ CSV_FILES, env.pathExists c = true → (env.loadCsv c).isOk = true) :
    load_all_documents env =
      Except.ok
        (PDF_FILES.flatMap (localDocsSpec env env.loadPdf)
           ++ CSV_FILES.flatMap (localDocsSpec env env.loadCsv)
           ++ URLS.flatMap (urlDocsSpec env),
         PDF_FILES.flatMap (pdfWarnSpec env)
           ++ CSV_FILES.flatMap (csvWarnSpec env)
           ++ URLS.flatMap (urlWarnSpec env)) :=
  load_all_documents_eq env hpdf hcsv

/-- Witness for C6: all local paths missing, all URL fetches failing. -/
theorem load_all_documents_warns_witness :
    load_all_documents envAllMissing =
      Except.ok
        (PDF_FILES.flatMap (localDocsSpec envAllMissing envAllMissing.loadPdf)
           ++ CSV_FILES.flatMap (localDocsSpec envAllMissing envAllMissing.loadCsv)
           ++ URLS.flatMap (urlDocsSpec envAllMissing),
         PDF_FILES.flatMap (pdfWarnSpec envAllMissing)
           ++ CSV_FILES.flatMap (csvWarnSpec envAllMissing)
           ++ URLS.flatMap (urlWarnSpec envAllMissing)) :=
  load_all_documents_warns envAllMissing
    (fun p _ hx => by simp [envAllMissing] at hx)
    (fun c _ hx => by simp [envAllMissing] at hx)

/-- C7: the returned document list is the concatenation of the PDF group,
then the CSV group, then the URL group, each group in configured-list order
with each source contributing its successfully loaded documents. -/
theorem load_all_documents_order (env : LoadEnv)
    (hpdf : ∀ p ∈ PDF_FILES, env.pathExists p = true → (env.loadPdf p).isOk = true)
    (hcsv : ∀ c ∈ CSV_FILES, env.pathExists c = true → (env.loadCsv c).isOk = true) :
    ∃ ws : List String,
      load_all_documents env =
        Except.ok
          (PDF_FILES.flatMap (localDocsSpec env env.loadPdf)
             ++ CSV_FILES.flatMap (localDocsSpec env env.loadCsv)
             ++ URLS.flatMap (urlDocsSpec env), ws) :=
  ⟨_, load_all_documents_eq env hpdf hcsv⟩

/-- Witness for C7: every source present and loading successfully. -/
theorem load_all_documents_order_witness :
    ∃ ws : List String,
      load_all_documents envAllPresent =
        Except.ok
          (PDF_FILES.flatMap (localDocsSpec envAllPresent envAllPresent.loadPdf)
             ++ CSV_FILES.flatMap (localDocsSpec envAllPresent envAllPresent.loadCsv)
             ++ URLS.flatMap (urlDocsSpec envAllPresent), ws) :=
  load_all_documents_order envAllPresent (fun _ _ _ => rfl) (fun _ _ _ => rfl)

/-- C9: `load_all_documents` completes exactly when every configured local
file that exists also parses successfully — URL failures never abort it —
and a parse exception from an existing configured PDF propagates unhandled
out of the call. -/
theorem local_parse_errors_propagate (env : LoadEnv) :
    ((load_all_documents env).isOk = true ↔
      ((∀ p ∈ PDF_FILES, env.pathExists p = true → (env.loadPdf p).isOk = true) ∧
       (∀ c ∈ CSV_FILES, env.pathExists c = true → (env.loadCsv c).isOk = true))) ∧
    (∀ e : String,
      env.pathExists "pdf_c_3_merged.pdf" = true →
      env.loadPdf "pdf_c_3_merged.pdf" = Except.error e →
      load_all_documents env = Except.error e) := by
  constructor
  · rw [load_all_documents_isOk_eq, Bool.and_eq_true,
      loadPdfLoop_isOk_iff, loadCsvLoop_isOk_iff]
  · intro e h1 h2
    simp [load_all_documents, loadPdfLoop, PDF_FILES, h1, h2]

/-- Witness for C9: a PDF parse failure propagates; when all loaders
succeed the call completes. -/
theorem local_parse_errors_propagate_witness :
    load_all_documents envBadPdf = Except.error "parse failure" ∧
    (load_all_documents envAllPresent).isOk = true :=
  ⟨(local_parse_errors_propagate envBadPdf).2 "parse failure" rfl rfl,
   (local_parse_errors_propagate envAllPresent).1.mpr
     ⟨fun _ _ _ => rfl, fun _ _ _ => rfl⟩⟩

/-- C10: when every configured local path is absent and every URL fetch
fails, `load_all_documents` still returns without raising, with the empty
document list, and the status line reports zero documents loaded. -/
theorem all_sources_fail_returns_empty (env : LoadEnv)
    (hpdf : ∀ p ∈ PDF_FILES, env.pathExists p = false)
    (hcsv : ∀ c ∈ CSV_FILES, env.pathExists c = false)
    (hurl : ∀ u ∈ URLS, ∃ e, env.loadUrl u = Except.error e) :
    ∃ ws : List String,
      load_all_documents env = Except.ok ([], ws) ∧
      loadedMessage [] = "✅ Loaded 0 documents." := by
  have h := load_all_documents_eq env
    (fun p hp hx => absurd hx (by simp [hpdf p hp]))
    (fun c hc hx => absurd hx (by simp [hcsv c hc]))
  rw [flatMap_localDocsSpec_nil env env.loadPdf PDF_FILES hpdf,
    flatMap_localDocsSpec_nil env env.loadCsv CSV_FILES hcsv,
    flatMap_urlDocsSpec_nil env URLS hurl] at h
  exact ⟨_, by simpa using h, rfl⟩

/-- Witness for C10 at the all-missing environment. -/
theorem all_sources_fail_returns_empty_witness :
    ∃ ws : List String,
      load_all_documents envAllMissing = Except.ok ([], ws) ∧
      loadedMessage [] = "✅ Loaded 0 documents." :=
  all_sources_fail_returns_empty envAllMissing
    (fun _ _ => rfl) (fun _ _ => rfl)
    (fun _ _ => ⟨"connection refused", rfl⟩)
